import Mathlib

/-!
Shallow embedding of the ds1621 temperature-sensor driver (src/src/lib.rs).

Modelling choices:
* `f32` temperature values are embedded as exact rationals `ℚ`. All float
  operations the driver performs (`as u8` / `as u32` saturating casts, the
  cast back `u32 as f32`, subtraction, and comparison with `0.5`) are exact
  at the magnitudes and granularity the driver works with (integers below
  2^24 and half degrees), so the rational model computes the same bytes and
  the same comparisons as the f32 code.
* Bytes (`u8`) are embedded as `Nat`, reduced `% 256` wherever the Rust type
  system forces a value into a `u8` coming from outside (bus read buffers).
* The `embedded_hal` blocking i2c transport is embedded as a response oracle
  `Bus E`: a pure function per capability (`read`, `write`, `write_read`)
  returning `Except E` results. Each driver operation additionally returns
  the list of bus transactions it issued, in order, so that "performs no
  transport call" / "exactly one write" claims are statable, and the final
  driver handle, so that frame claims about the `addr` / `mode` fields are
  statable.
* Rust `Result<T, E>` is embedded as `Except E T`; the driver error enum
  `Error<E>` keeps its source shape.
-/

namespace DS1621

/-- The driver error enum `Error<E>` from the source: `I2C(E)` wraps a
transport failure, `INVALID_PARAMETER` flags a bad register opcode. -/
inductive Error (E : Type) where
  | I2C : E → Error E
  | INVALID_PARAMETER : Error E
  deriving DecidableEq

/-- The conversion-mode enum `MODE` from the source. -/
inductive MODE where
  | CONTINOUS : MODE
  | ONE_SHOT : MODE
  deriving DecidableEq

/-- Register opcodes, from `impl Register` in the source. -/
def Register.TEMPERATURE : Nat := 0xAA

def Register.ACCESS_TH : Nat := 0xA1

def Register.ACCESS_TL : Nat := 0xA2

def Register.ACCESS_CONFIG : Nat := 0xAC

def Register.START_CONVERT : Nat := 0xEE

def Register.STOP_CONVERT : Nat := 0x22

/-- Configuration-register bit masks, from `impl ConfigRegBits`. Only
`ONE_SHOT` (bit 0) is used by the driver logic. -/
def ConfigRegBits.DONE : Nat := 0b10000000

def ConfigRegBits.ONE_SHOT : Nat := 0b00000001

/-- A bus transaction as issued by the driver: the trace alphabet. `read`
records the target address and the number of bytes requested; `write`
records the address and payload; `write_read` records address, written
payload and number of bytes read back. -/
inductive Transaction where
  | read : Nat → Nat → Transaction
  | write : Nat → List Nat → Transaction
  | write_read : Nat → List Nat → Nat → Transaction
  deriving DecidableEq

/-- The transport capability set required by the driver (embedded_hal's
blocking `Read + Write + WriteRead`), as a pure response oracle. `read a n`
returns the bytes a bus read at address `a` into an `n`-byte buffer yields;
`write a p` sends payload `p`; `write_read a p n` is the combined
transaction. -/
structure Bus (E : Type) where
  read : Nat → Nat → Except E (List Nat)
  write : Nat → List Nat → Except E Unit
  write_read : Nat → List Nat → Nat → Except E (List Nat)

/-- The driver handle `ds1621<I2C>`: owns the transport, the device address
and the in-memory conversion mode. -/
structure ds1621 (E : Type) where
  i2c : Bus E
  addr : Nat
  mode : MODE

def ADDR_DEFAULT : Nat := 0x4A

variable {E : Type}

/-- `ds1621::new_default`: address `0x4A`, mode `CONTINOUS`. -/
def ds1621.new_default (i2c : Bus E) : ds1621 E :=
  { i2c := i2c, addr := ADDR_DEFAULT, mode := MODE.CONTINOUS }

/-- `ds1621::new`: caller-supplied address, mode `CONTINOUS`. -/
def ds1621.new (i2c : Bus E) (a_addr : Nat) : ds1621 E :=
  { i2c := i2c, addr := a_addr, mode := MODE.CONTINOUS }

/-- Rust saturating cast `f32 as u8` on the rational model: truncate toward
zero, clamp into `[0, 255]` (negative values saturate to 0). -/
def f32_as_u8 (t : ℚ) : Nat :=
  if t < 0 then 0 else min (⌊t⌋.toNat) 255

/-- Rust saturating cast `f32 as u32` on the rational model: truncate toward
zero, clamp into `[0, 2^32 - 1]` (negative values saturate to 0). -/
def f32_as_u32 (t : ℚ) : Nat :=
  if t < 0 then 0 else min (⌊t⌋.toNat) (2 ^ 32 - 1)

/-- `ds1621::read_config` (source lines 102-113): one bare bus read of a
single byte at the device address; returns the byte, or the transport error
UNWRAPPED. Result, issued-transaction trace, final handle. -/
def read_config (self : ds1621 E) :
    Except E Nat × List Transaction × ds1621 E :=
  match self.i2c.read self.addr 1 with
  | Except.ok bs => (Except.ok (bs.getD 0 0 % 256), [Transaction.read self.addr 1], self)
  | Except.error e => (Except.error e, [Transaction.read self.addr 1], self)

/-- `ds1621::write_config` (source lines 120-129): one single-byte bus write;
a transport error is wrapped as `Error::I2C`. -/
def write_config (self : ds1621 E) (a_config : Nat) :
    Except (Error E) Unit × List Transaction × ds1621 E :=
  match self.i2c.write self.addr [a_config] with
  | Except.ok _ => (Except.ok (), [Transaction.write self.addr [a_config]], self)
  | Except.error e => (Except.error (Error.I2C e), [Transaction.write self.addr [a_config]], self)

/-- `ds1621::set_convert_mode` (source lines 74-95): read the config byte via
`read_config`; on success adjust bit 0 (`|= ONE_SHOT` for `CONTINOUS`,
`&= 0xFE` for `ONE_SHOT`) and write it back via `write_config`; on a failed
read wrap the transport error as `Error::I2C`. Does not touch `self.mode`. -/
def set_convert_mode (self : ds1621 E) (a_mode : MODE) :
    Except (Error E) Unit × List Transaction × ds1621 E :=
  match read_config self with
  | (Except.ok conf_val, tr, self1) =>
      let conf_val2 :=
        match a_mode with
        | MODE.CONTINOUS => conf_val ||| ConfigRegBits.ONE_SHOT
        | MODE.ONE_SHOT => conf_val &&& 0xFE
      let r := write_config self1 conf_val2
      (r.1, tr ++ r.2.1, r.2.2)
  | (Except.error e, tr, self1) => (Except.error (Error.I2C e), tr, self1)

/-- `ds1621::start_convert` (source lines 131-133): a single one-byte write
of the `START_CONVERT` opcode; returns the transport result UNWRAPPED. -/
def start_convert (self : ds1621 E) :
    Except E Unit × List Transaction × ds1621 E :=
  (self.i2c.write self.addr [Register.START_CONVERT],
   [Transaction.write self.addr [Register.START_CONVERT]], self)

/-- `ds1621::stop_convert` (source lines 135-137): a single one-byte write of
the `STOP_CONVERT` opcode; returns the transport result UNWRAPPED. -/
def stop_convert (self : ds1621 E) :
    Except E Unit × List Transaction × ds1621 E :=
  (self.i2c.write self.addr [Register.STOP_CONVERT],
   [Transaction.write self.addr [Register.STOP_CONVERT]], self)

/-- The two payload bytes built by `write_threshold_temperature`
(source lines 152-159): the integer byte `a_temp as u8`, and the flag byte
which the source sets to `0x80` exactly when
`(a_temp as u32) as f32 - a_temp >= 0.5` — truncated-then-reconverted value
MINUS the original input (note the operand order). -/
def encode_threshold (a_temp : ℚ) : Nat × Nat :=
  (f32_as_u8 a_temp,
   if (1 : ℚ) / 2 ≤ (f32_as_u32 a_temp : ℚ) - a_temp then 0x80 else 0)

/-- `ds1621::write_threshold_temperature` (source lines 147-170): reject any
register other than `ACCESS_TL` / `ACCESS_TH` with `INVALID_PARAMETER`
before any bus traffic; otherwise issue one 3-byte write
`[reg, a_temp as u8, flag]`, wrapping a transport error as `Error::I2C`. -/
def write_threshold_temperature (self : ds1621 E) (a_temp : ℚ) (reg : Nat) :
    Except (Error E) Unit × List Transaction × ds1621 E :=
  if reg ≠ Register.ACCESS_TL ∧ reg ≠ Register.ACCESS_TH then
    (Except.error Error.INVALID_PARAMETER, [], self)
  else
    let wr_buff : List Nat := [reg, (encode_threshold a_temp).1, (encode_threshold a_temp).2]
    match self.i2c.write self.addr wr_buff with
    | Except.ok _ => (Except.ok (), [Transaction.write self.addr wr_buff], self)
    | Except.error e => (Except.error (Error.I2C e), [Transaction.write self.addr wr_buff], self)

/-- `ds1621::write_high_temperature` (source lines 139-141): forwards to the
threshold write with `ACCESS_TH`. -/
def write_high_temperature (self : ds1621 E) (a_temp : ℚ) :
    Except (Error E) Unit × List Transaction × ds1621 E :=
  write_threshold_temperature self a_temp Register.ACCESS_TH

/-- `ds1621::write_low_temperature` (source lines 143-145): forwards to the
threshold write with `ACCESS_TL`. -/
def write_low_temperature (self : ds1621 E) (a_temp : ℚ) :
    Except (Error E) Unit × List Transaction × ds1621 E :=
  write_threshold_temperature self a_temp Register.ACCESS_TL

/-- The pure decode step of `read_temperature` (source lines 185-188) on the
two raw bytes: `raw[0] as f32` — the byte is a `u8`, so the cast is
UNSIGNED — plus `0.5` when `raw[1]` is nonzero. -/
def decode_temperature (b0 b1 : Nat) : ℚ :=
  if b1 % 256 ≠ 0 then (b0 % 256 : Nat) + 1 / 2 else (b0 % 256 : Nat)

/-- `ds1621::read_temperature` (source lines 177-197): one combined
write-then-read transaction (write the `TEMPERATURE` opcode, read 2 bytes),
decode as in `decode_temperature`; transport errors are returned UNWRAPPED. -/
def read_temperature (self : ds1621 E) :
    Except E ℚ × List Transaction × ds1621 E :=
  match self.i2c.write_read self.addr [Register.TEMPERATURE] 2 with
  | Except.ok raw =>
      (Except.ok (decode_temperature (raw.getD 0 0) (raw.getD 1 0)),
       [Transaction.write_read self.addr [Register.TEMPERATURE] 2], self)
  | Except.error e =>
      (Except.error e, [Transaction.write_read self.addr [Register.TEMPERATURE] 2], self)

/-- Reference function from the spec's words (section 8, claim C1):
`truncate_to_half_degree(t) = floor(t) + (0.5 if t - floor(t) >= 0.5 else 0)`.
This is the spec-side function the encode/decode round trip is compared
against; it is NOT part of the source. -/
def truncate_to_half_degree (t : ℚ) : ℚ :=
  (⌊t⌋ : ℚ) + (if (1 : ℚ) / 2 ≤ t - ⌊t⌋ then 1 / 2 else 0)

/-- One public driver operation, for stating frame properties over arbitrary
call sequences. -/
inductive Op where
  | setConvertMode : MODE → Op
  | readConfig : Op
  | writeConfig : Nat → Op
  | startConvert : Op
  | stopConvert : Op
  | readTemperature : Op
  | writeHigh : ℚ → Op
  | writeLow : ℚ → Op
  | writeThreshold : ℚ → Nat → Op

/-- The handle state after one driver operation (the third component each
operation returns). -/
def step (self : ds1621 E) : Op → ds1621 E
  | Op.setConvertMode m => (set_convert_mode self m).2.2
  | Op.readConfig => (read_config self).2.2
  | Op.writeConfig c => (write_config self c).2.2
  | Op.startConvert => (start_convert self).2.2
  | Op.stopConvert => (stop_convert self).2.2
  | Op.readTemperature => (read_temperature self).2.2
  | Op.writeHigh t => (write_high_temperature self t).2.2
  | Op.writeLow t => (write_low_temperature self t).2.2
  | Op.writeThreshold t r => (write_threshold_temperature self t r).2.2

/-- The handle state after a sequence of driver operations. -/
def run (self : ds1621 E) : List Op → ds1621 E
  | [] => self
  | op :: ops => run (step self op) ops

/-- A transport whose every transaction succeeds; reads return zero-filled
buffers. Used to evaluate the driver at concrete inputs. -/
def okBus : Bus Unit :=
  { read := fun _ n => Except.ok (List.replicate n 0),
    write := fun _ _ => Except.ok (),
    write_read := fun _ _ n => Except.ok (List.replicate n 0) }

/-- A transport whose combined write-read transaction returns the fixed byte
list `bytes`. Used to drive `read_temperature` with chosen raw bytes. -/
def tempBus (bytes : List Nat) : Bus Unit :=
  { read := fun _ n => Except.ok (List.replicate n 0),
    write := fun _ _ => Except.ok (),
    write_read := fun _ _ _ => Except.ok bytes }

/-- A transport whose every transaction fails with `()`. Used to evaluate the
error-propagation claims at a concrete input. -/
def errBus : Bus Unit :=
  { read := fun _ _ => Except.error (),
    write := fun _ _ => Except.error (),
    write_read := fun _ _ _ => Except.error () }


/-! ## Helper lemmas shared by several claims -/

/-- With a valid threshold register, the threshold write issues exactly one
3-byte bus write `[reg, integer byte, flag byte]`, whether or not the
transport succeeds. -/
theorem write_threshold_trace (self : ds1621 E) (t : ℚ) (reg : Nat)
    (hreg : reg = Register.ACCESS_TH ∨ reg = Register.ACCESS_TL) :
    (write_threshold_temperature self t reg).2.1 =
      [Transaction.write self.addr [reg, (encode_threshold t).1, (encode_threshold t).2]] := by
  have hcond : ¬(reg ≠ Register.ACCESS_TL ∧ reg ≠ Register.ACCESS_TH) := by
    rcases hreg with h | h <;> simp [h, Register.ACCESS_TH, Register.ACCESS_TL]
  rw [write_threshold_temperature, if_neg hcond]
  cases h : self.i2c.write self.addr [reg, (encode_threshold t).1, (encode_threshold t).2] <;>
    simp [h]

/-- The threshold write never changes the handle. -/
theorem write_threshold_state (self : ds1621 E) (t : ℚ) (reg : Nat) :
    (write_threshold_temperature self t reg).2.2 = self := by
  rw [write_threshold_temperature]
  split
  · rfl
  · cases h : self.i2c.write self.addr [reg, (encode_threshold t).1, (encode_threshold t).2] <;>
      simp [h]

/-- The config write never changes the handle. -/
theorem write_config_state (self : ds1621 E) (c : Nat) :
    (write_config self c).2.2 = self := by
  cases h : self.i2c.write self.addr [c] <;> simp [write_config, h]

/-- Evaluation of the threshold encoding at 23.7: integer byte 23, and flag
byte 0, because the source compares `23 - 23.7 ≥ 0.5`, which is false. -/
theorem encode_threshold_at_23_7 : encode_threshold (237/10) = (23, 0) := by
  have h1 : f32_as_u8 (237/10) = 23 := by norm_num [f32_as_u8]; rfl
  have h32 : f32_as_u32 (237/10) = 23 := by norm_num [f32_as_u32]; rfl
  rw [encode_threshold, h1, h32]
  norm_num

/-- Evaluation of the threshold encoding at 23.3: integer byte 23, flag 0. -/
theorem encode_threshold_at_23_3 : encode_threshold (233/10) = (23, 0) := by
  have h1 : f32_as_u8 (233/10) = 23 := by norm_num [f32_as_u8]; rfl
  have h32 : f32_as_u32 (233/10) = 23 := by norm_num [f32_as_u32]; rfl
  rw [encode_threshold, h1, h32]
  norm_num

/-- One driver operation leaves the handle (transport, address, mode)
untouched: no method of the source assigns to any field of `self`. -/
theorem step_fix (self : ds1621 E) (op : Op) : step self op = self := by
  cases op with
  | setConvertMode m =>
      show (set_convert_mode self m).2.2 = self
      cases hr : self.i2c.read self.addr 1 with
      | error e => simp [set_convert_mode, read_config, hr]
      | ok bs => cases m <;> simp [set_convert_mode, read_config, hr, write_config_state]
  | readConfig =>
      show (read_config self).2.2 = self
      cases hr : self.i2c.read self.addr 1 <;> simp [read_config, hr]
  | writeConfig c => exact write_config_state self c
  | startConvert => rfl
  | stopConvert => rfl
  | readTemperature =>
      show (read_temperature self).2.2 = self
      cases h : self.i2c.write_read self.addr [Register.TEMPERATURE] 2 <;>
        simp [read_temperature, h]
  | writeHigh t => exact write_threshold_state self t Register.ACCESS_TH
  | writeLow t => exact write_threshold_state self t Register.ACCESS_TL
  | writeThreshold t r => exact write_threshold_state self t r

/-- A whole sequence of driver operations leaves the handle untouched. -/
theorem run_fix (self : ds1621 E) (ops : List Op) : run self ops = self := by
  induction ops generalizing self with
  | nil => rfl
  | cons op ops ih => rw [run, step_fix]; exact ih self

/-! ## Claim theorems -/

/-- Claim C1 (code_bug evidence): the encode-then-decode round trip FAILS at
the valid input t = 23.7. The payload bytes the threshold encoding produces
decode to 23.0, while `truncate_to_half_degree 23.7 = 23.5`. The source's
flag test subtracts the original from the truncated value (`round as f32 -
a_temp >= 0.5`), so the half-degree flag is never set for non-negative
inputs and the round trip loses the half degree. -/
theorem claim_c1_roundtrip_fails_at_23_7 :
    decode_temperature (encode_threshold (237/10)).1 (encode_threshold (237/10)).2 = 23 ∧
    truncate_to_half_degree (237/10) = 47/2 ∧ (23 : ℚ) ≠ 47/2 := by
  rw [encode_threshold_at_23_7]
  exact ⟨by norm_num [decode_temperature], by norm_num [truncate_to_half_degree], by norm_num⟩

/-- Claim C2 (code_bug evidence): `write_high_temperature 23.7` actually
issues the 3-byte write `[0xA1, 23, 0x00]` — NOT `[0xA1, 23, 0x80]` as the
claim states — because the source's flag condition compares
truncated-minus-original (`23 - 23.7`), which is negative, against `0.5`.
`write_low_temperature 23.3` issues `[0xA2, 23, 0x00]` as claimed. -/
theorem claim_c2_threshold_bytes_at_23_7_and_23_3 :
    (write_high_temperature (ds1621.new okBus ADDR_DEFAULT) (237/10)).2.1 =
      [Transaction.write ADDR_DEFAULT [0xA1, 23, 0x00]] ∧
    (write_low_temperature (ds1621.new okBus ADDR_DEFAULT) (233/10)).2.1 =
      [Transaction.write ADDR_DEFAULT [0xA2, 23, 0x00]] ∧
    [0xA1, 23, 0x00] ≠ ([0xA1, 23, 0x80] : List Nat) := by
  refine ⟨?_, ?_, by simp⟩
  · rw [write_high_temperature,
      write_threshold_trace _ _ _ (Or.inl rfl), encode_threshold_at_23_7]
    simp [ds1621.new, Register.ACCESS_TH]
  · rw [write_low_temperature,
      write_threshold_trace _ _ _ (Or.inr rfl), encode_threshold_at_23_3]
    simp [ds1621.new, Register.ACCESS_TL]

/-- Claim C3 (code_bug evidence): `read_temperature` decodes raw bytes
`[23, 0]` to 23.0, `[23, 1]` to 23.5 and `[0, 0]` to 0.0 as claimed, but
decodes `[0xF6, 5]` to 246.5 — NOT to -9.5 as the claim states — because the
source casts `raw_read[0]`, a `u8`, to `f32` UNSIGNED; no signed
interpretation happens anywhere in the decoder. -/
theorem claim_c3_read_temperature_decode_examples :
    (read_temperature (ds1621.new (tempBus [23, 0]) 0x4A)).1 = Except.ok 23 ∧
    (read_temperature (ds1621.new (tempBus [23, 1]) 0x4A)).1 = Except.ok (47/2) ∧
    (read_temperature (ds1621.new (tempBus [0, 0]) 0x4A)).1 = Except.ok 0 ∧
    (read_temperature (ds1621.new (tempBus [0xF6, 5]) 0x4A)).1 = Except.ok (493/2) ∧
    (493/2 : ℚ) ≠ -(19/2) := by
  refine ⟨?_, ?_, ?_, ?_, by norm_num⟩ <;>
    norm_num [read_temperature, decode_temperature, ds1621.new, tempBus]

/-- Claim C4: for every register opcode other than the two threshold opcodes
0xA1 and 0xA2, and every temperature input and transport, the threshold
write fails with `INVALID_PARAMETER` and issues no bus transaction at all. -/
theorem claim_c4_invalid_register_no_bus_traffic (self : ds1621 E) (t : ℚ) (reg : Nat)
    (h1 : reg ≠ 0xA1) (h2 : reg ≠ 0xA2) :
    (write_threshold_temperature self t reg).1 = Except.error Error.INVALID_PARAMETER ∧
    (write_threshold_temperature self t reg).2.1 = [] := by
  rw [write_threshold_temperature, if_pos ⟨h2, h1⟩]
  exact ⟨rfl, rfl⟩

/-- Witness for C4 at the concrete register 0xAC (the configuration opcode)
and input 25. -/
theorem claim_c4_invalid_register_no_bus_traffic_witness :
    (write_threshold_temperature (ds1621.new okBus 0x4A) 25 0xAC).1 =
      Except.error Error.INVALID_PARAMETER ∧
    (write_threshold_temperature (ds1621.new okBus 0x4A) 25 0xAC).2.1 = [] :=
  claim_c4_invalid_register_no_bus_traffic (ds1621.new okBus 0x4A) 25 0xAC
    (by decide) (by decide)

/-- Claim C5: `set_convert_mode` issues exactly one configuration read,
followed — only when that read succeeds — by exactly one configuration
write, whose byte is the freshly read byte with bit 0 set (`||| ONE_SHOT`)
for `CONTINOUS` and AND-ed with mask 0xFE for `ONE_SHOT`. -/
theorem claim_c5_set_convert_mode_transactions (self : ds1621 E) (m : MODE) :
    (set_convert_mode self m).2.1 =
      match self.i2c.read self.addr 1 with
      | Except.error _ => [Transaction.read self.addr 1]
      | Except.ok bs =>
          [Transaction.read self.addr 1,
           Transaction.write self.addr
             [match m with
              | MODE.CONTINOUS => bs.getD 0 0 % 256 ||| ConfigRegBits.ONE_SHOT
              | MODE.ONE_SHOT => bs.getD 0 0 % 256 &&& 0xFE]] := by
  cases hr : self.i2c.read self.addr 1 with
  | error e => simp [set_convert_mode, read_config, hr]
  | ok bs =>
      cases m <;>
        · simp only [set_convert_mode, read_config, write_config, hr]
          cases h : self.i2c.write self.addr _ <;> simp [h]

/-- Claim C6: error propagation is asymmetric exactly as claimed. When every
transport transaction fails with the native error `e`: `read_config`,
`start_convert`, `stop_convert` and `read_temperature` return `e` unwrapped,
while `write_config`, `set_convert_mode` and the three threshold-write entry
points return it wrapped as `Error.I2C e`; no result alters `e` otherwise. -/
theorem claim_c6_error_wrapping_asymmetry (self : ds1621 E) (e : E) (c : Nat) (t : ℚ) (m : MODE)
    (hr : ∀ a n, self.i2c.read a n = Except.error e)
    (hw : ∀ a p, self.i2c.write a p = Except.error e)
    (hwr : ∀ a p n, self.i2c.write_read a p n = Except.error e) :
    (read_config self).1 = Except.error e ∧
    (start_convert self).1 = Except.error e ∧
    (stop_convert self).1 = Except.error e ∧
    (read_temperature self).1 = Except.error e ∧
    (write_config self c).1 = Except.error (Error.I2C e) ∧
    (set_convert_mode self m).1 = Except.error (Error.I2C e) ∧
    (write_threshold_temperature self t Register.ACCESS_TH).1 = Except.error (Error.I2C e) ∧
    (write_high_temperature self t).1 = Except.error (Error.I2C e) ∧
    (write_low_temperature self t).1 = Except.error (Error.I2C e) := by
  refine ⟨?_, ?_, ?_, ?_, ?_, ?_, ?_, ?_, ?_⟩ <;>
    simp [read_config, start_convert, stop_convert, read_temperature, write_config,
      set_convert_mode, write_threshold_temperature, write_high_temperature,
      write_low_temperature, hr, hw, hwr, Register.ACCESS_TH, Register.ACCESS_TL]

/-- Witness for C6 on the concrete always-failing transport `errBus`. -/
theorem claim_c6_error_wrapping_asymmetry_witness :
    (read_config (ds1621.new errBus 0x4A)).1 = Except.error () ∧
    (start_convert (ds1621.new errBus 0x4A)).1 = Except.error () ∧
    (stop_convert (ds1621.new errBus 0x4A)).1 = Except.error () ∧
    (read_temperature (ds1621.new errBus 0x4A)).1 = Except.error () ∧
    (write_config (ds1621.new errBus 0x4A) 0).1 = Except.error (Error.I2C ()) ∧
    (set_convert_mode (ds1621.new errBus 0x4A) MODE.CONTINOUS).1 = Except.error (Error.I2C ()) ∧
    (write_threshold_temperature (ds1621.new errBus 0x4A) (237/10) Register.ACCESS_TH).1 =
      Except.error (Error.I2C ()) ∧
    (write_high_temperature (ds1621.new errBus 0x4A) (237/10)).1 = Except.error (Error.I2C ()) ∧
    (write_low_temperature (ds1621.new errBus 0x4A) (237/10)).1 = Except.error (Error.I2C ()) :=
  claim_c6_error_wrapping_asymmetry (ds1621.new errBus 0x4A) () 0 (237/10) MODE.CONTINOUS
    (fun _ _ => rfl) (fun _ _ => rfl) (fun _ _ _ => rfl)

/-- Claim C7: `start_convert` issues exactly one bus write with the single
byte 0xEE, and `stop_convert` exactly one with the single byte 0x22, for
every transport and handle, with no other transaction. -/
theorem claim_c7_start_stop_convert_single_write (self : ds1621 E) :
    (start_convert self).2.1 = [Transaction.write self.addr [0xEE]] ∧
    (stop_convert self).2.1 = [Transaction.write self.addr [0x22]] :=
  ⟨rfl, rfl⟩

/-- Claim C8: after any sequence of driver operations following
construction, the handle's `mode` field still holds `CONTINOUS` as set by
both constructors, and the `addr` field still holds the constructor-supplied
address: no operation, `set_convert_mode` included, ever assigns to either
field. -/
theorem claim_c8_mode_and_addr_never_change (i2c : Bus E) (a : Nat) (ops : List Op) :
    (run (ds1621.new i2c a) ops).addr = a ∧
    (run (ds1621.new i2c a) ops).mode = MODE.CONTINOUS ∧
    (run (ds1621.new_default i2c) ops).addr = 0x4A ∧
    (run (ds1621.new_default i2c) ops).mode = MODE.CONTINOUS := by
  rw [run_fix, run_fix]
  exact ⟨rfl, rfl, rfl, rfl⟩

/-- Claim C9: for every negative input t and valid threshold register, the
integer byte written is 0 (the saturating `as u8` cast clamps negatives to
0), and the flag byte is 0x80 exactly when t ≤ -0.5 (the `as u32` cast also
clamps to 0, and the source's condition becomes `0 - t ≥ 0.5`). -/
theorem claim_c9_negative_input_saturates (self : ds1621 E) (t : ℚ) (reg : Nat)
    (hreg : reg = Register.ACCESS_TH ∨ reg = Register.ACCESS_TL) (ht : t < 0) :
    (write_threshold_temperature self t reg).2.1 =
      [Transaction.write self.addr [reg, 0, if t ≤ -(1/2 : ℚ) then 0x80 else 0]] := by
  rw [write_threshold_trace self t reg hreg]
  have h8 : (encode_threshold t).1 = 0 := by simp [encode_threshold, f32_as_u8, ht]
  have h32 : f32_as_u32 t = 0 := by simp [f32_as_u32, ht]
  have hiff : ((1:ℚ)/2 ≤ ((0:Nat):ℚ) - t) ↔ (t ≤ -(1/2 : ℚ)) := by
    push_cast
    constructor <;> intro h <;> linarith
  have hflag : (encode_threshold t).2 = if t ≤ -(1/2 : ℚ) then 0x80 else 0 := by
    rw [encode_threshold]
    simp only [h32, hiff]
  rw [h8, hflag]

/-- Witness for C9 at the concrete input t = -10, register 0xA1: the written
payload is `[0xA1, 0, 0x80]`. -/
theorem claim_c9_negative_input_saturates_witness :
    (write_threshold_temperature (ds1621.new okBus 0x4A) (-10) 0xA1).2.1 =
      [Transaction.write 0x4A [0xA1, 0, 0x80]] := by
  have h := claim_c9_negative_input_saturates (ds1621.new okBus 0x4A) (-10) 0xA1
    (Or.inl rfl) (by norm_num)
  rw [h]
  norm_num [ds1621.new]

/-- Claim C10: for every non-negative input t and valid threshold register,
the flag byte written is 0x00: the truncated value never exceeds t, so the
source's condition `trunc(t) - t ≥ 0.5` is unsatisfiable. -/
theorem claim_c10_nonnegative_flag_always_zero (self : ds1621 E) (t : ℚ) (reg : Nat)
    (hreg : reg = Register.ACCESS_TH ∨ reg = Register.ACCESS_TL) (ht : 0 ≤ t) :
    (write_threshold_temperature self t reg).2.1 =
      [Transaction.write self.addr [reg, f32_as_u8 t, 0]] := by
  rw [write_threshold_trace self t reg hreg]
  have h1 : (f32_as_u32 t : ℚ) ≤ t := by
    rw [f32_as_u32, if_neg (not_lt.mpr ht)]
    have h0 : (0:ℤ) ≤ ⌊t⌋ := Int.floor_nonneg.mpr ht
    calc ((min (⌊t⌋.toNat) (2^32-1) : ℕ) : ℚ) ≤ ((⌊t⌋.toNat : ℕ) : ℚ) := by
          exact_mod_cast min_le_left _ _
      _ = ((⌊t⌋ : ℤ) : ℚ) := by
          exact_mod_cast congrArg (fun z : ℤ => (z : ℚ)) (Int.toNat_of_nonneg h0)
      _ ≤ t := Int.floor_le t
  have hflag : (encode_threshold t).2 = 0 := by
    rw [encode_threshold]
    simp only []
    rw [if_neg]
    intro hc
    linarith
  rw [hflag]
  simp [encode_threshold]

/-- Witness for C10 at the concrete input t = 23.7, register 0xA2: the
written payload is `[0xA2, 23, 0x00]`. -/
theorem claim_c10_nonnegative_flag_always_zero_witness :
    (write_threshold_temperature (ds1621.new okBus 0x4A) (237/10) 0xA2).2.1 =
      [Transaction.write 0x4A [0xA2, 23, 0]] := by
  have h := claim_c10_nonnegative_flag_always_zero (ds1621.new okBus 0x4A) (237/10) 0xA2
    (Or.inr rfl) (by norm_num)
  rw [h]
  have h1 : f32_as_u8 (237/10) = 23 := by norm_num [f32_as_u8]; rfl
  simp [ds1621.new, h1]

end DS1621
